import Mathlib

/- Verification of the asus-numpad touchpad driver core.

   Shallow embedding of the Rust sources: the geometry model and layout
   catalog (src/numpad_layout.rs), brightness cycling (src/touchpad_i2c.rs),
   elapsed-time arithmetic (src/util.rs) and the gesture state machine
   (src/main.rs).  Machine integers are modelled as Int with explicit
   wrapping (emod by two-power moduli) where the claims exercise overflow;
   hardware side effects (key emission, brightness writes, device
   grab/ungrab, calculator commands) are modelled as an output list. -/

namespace AsusNumpad

/-- Emulated key identities (evdev key codes) used by the layout catalog
and the dummy keyboard. -/
inductive EVKey where
  | KEY_KP0 | KEY_KP1 | KEY_KP2 | KEY_KP3 | KEY_KP4
  | KEY_KP5 | KEY_KP6 | KEY_KP7 | KEY_KP8 | KEY_KP9
  | KEY_KPDOT | KEY_KPSLASH | KEY_KPASTERISK | KEY_KPMINUS | KEY_KPPLUS
  | KEY_KPENTER | KEY_KPEQUAL | KEY_BACKSPACE | KEY_5 | KEY_EQUAL
  | KEY_CALC | KEY_BACKSLASH | KEY_LEFTSHIFT | KEY_NUMLOCK
  deriving DecidableEq, Repr, Fintype

/-- Wrap an integer into the signed 32-bit range, the semantics of Rust
i32 arithmetic in release builds. -/
def wrap32 (v : Int) : Int := (v + 2147483648) % 4294967296 - 2147483648

/-- Wrap an integer into the signed 64-bit range, the semantics of Rust
i64 arithmetic in release builds. -/
def wrap64 (v : Int) : Int :=
  (v + 9223372036854775808) % 18446744073709551616 - 9223372036854775808

/-- Integer point in raw device coordinates (main.rs, struct Point). -/
structure Point where
  x : Int
  y : Int
  deriving DecidableEq, Repr

/-- Squared Euclidean distance (main.rs, Point::dist_sq), with the i32
wrapping of the subtractions, squarings and the sum made explicit. -/
def Point.dist_sq (p other : Point) : Int :=
  wrap32 (wrap32 ((wrap32 (p.x - other.x)) ^ 2) + wrap32 ((wrap32 (p.y - other.y)) ^ 2))

/-- Bounding box in device coordinates (numpad_layout.rs, struct BBox). -/
structure BBox where
  minx : Int
  maxx : Int
  miny : Int
  maxy : Int
  deriving DecidableEq, Repr

def BBox.new (minx maxx miny maxy : Int) : BBox := ⟨minx, maxx, miny, maxy⟩

def BBox.xrange (b : BBox) : Int := b.maxx - b.minx

def BBox.yrange (b : BBox) : Int := b.maxy - b.miny

/-- Per-edge fractional margins (numpad_layout.rs, struct Margins).  The
source stores f32 fractions; every fraction in the catalog is a multiple
of 0.005, so they are represented exactly here in thousandths. -/
structure Margins where
  top : Int
  bottom : Int
  left : Int
  right : Int
  deriving DecidableEq, Repr

/-- BBox::apply_margins.  The source computes (fraction * range) in f32
and truncates with an `as i32` cast; this is modelled as exact
scaled-integer arithmetic with truncating division.  At every bbox used
in this development the products are at least 0.1 away from an integer,
far beyond f32 rounding error, so the two computations agree. -/
def BBox.apply_margins (b : BBox) (m : Margins) : BBox :=
  { minx := b.minx + (m.left * b.xrange).tdiv 1000
    maxx := b.maxx - (m.right * b.xrange).tdiv 1000
    miny := b.miny + (m.top * b.yrange).tdiv 1000
    maxy := b.maxy - (m.bottom * b.yrange).tdiv 1000 }

/-- BBox::disjoint_dummy: a box that never intersects the original. -/
def BBox.disjoint_dummy (b : BBox) : BBox :=
  { minx := b.maxx + 1, maxx := b.maxx + 2, miny := b.maxy + 1, maxy := b.maxy + 2 }

/-- BBox::contains: inclusive-bounds test on both axes. -/
def BBox.contains (b : BBox) (pos : Point) : Prop :=
  (b.minx ≤ pos.x ∧ pos.x ≤ b.maxx) ∧ (b.miny ≤ pos.y ∧ pos.y ≤ b.maxy)

instance (b : BBox) (pos : Point) : Decidable (b.contains pos) := by
  unfold BBox.contains; infer_instance

/-- Brightness levels of the touchpad backlight (touchpad_i2c.rs).  The
source enum carries register values (Zero=0, Low=31, Half=24, Full=1);
only the identities matter here. -/
inductive Brightness where
  | Zero | Low | Half | Full
  deriving DecidableEq, Repr, Fintype

/-- The source derives Default with the #[default] attribute on Full. -/
def Brightness.default : Brightness := Brightness.Full

/-- Brightness::next (touchpad_i2c.rs). -/
def Brightness.next : Brightness → Brightness
  | Brightness.Zero => Brightness.default
  | Brightness.Low => Brightness.Half
  | Brightness.Half => Brightness.Full
  | Brightness.Full => Brightness.Low

/-- Timestamp carried by evdev events (evdev_rs::TimeVal); both fields
are signed 64-bit integers. -/
structure TimeVal where
  tv_sec : Int
  tv_usec : Int
  deriving DecidableEq, Repr

/-- CustomDuration::from_millis (util.rs): milliseconds to microseconds. -/
def from_millis (millis : Nat) : Nat := millis * 1000

/-- ElapsedSince for TimeVal (util.rs): the duration in microseconds as
the u64 the source produces, with the i64 wrapping of every subtraction,
the multiply and the final `as u64` cast made explicit. -/
def elapsedSince (t other : TimeVal) : Nat :=
  if other.tv_usec ≤ t.tv_usec then
    ((wrap64 (wrap64 ((wrap64 (t.tv_sec - other.tv_sec)) * 1000000) +
        wrap64 (t.tv_usec - other.tv_usec))) % 18446744073709551616).toNat
  else
    ((wrap64 (wrap64 ((wrap64 (wrap64 (t.tv_sec - other.tv_sec) - 1)) * 1000000) +
        wrap64 (wrap64 (t.tv_usec - other.tv_usec) + 1000000))) %
      18446744073709551616).toNat

/-- NumpadLayout::needs_multikey (numpad_layout.rs); the self parameter
is unused in the source. -/
def needs_multikey (key : EVKey) : Bool := decide (key = EVKey.KEY_5)

/-- NumpadLayout::multikeys (numpad_layout.rs).  The wildcard arm of the
source is an unreachable_unchecked hint; it is modelled as none, so any
execution of that arm is visible as a none result. -/
def multikeys (key : EVKey) : Option (List EVKey) :=
  match key with
  | EVKey.KEY_5 => some [EVKey.KEY_LEFTSHIFT, EVKey.KEY_5]
  | _ => none

/-- The key list actually passed to the dummy keyboard at a multikey
call site ((getD []) stands for the undefined-behaviour arm). -/
def multikeysD (key : EVKey) : List EVKey := (multikeys key).getD []

/-- The key grid of a layout (numpad_layout.rs, type Grid). -/
def Grid : Type := List (List EVKey)

instance : DecidableEq Grid := by unfold Grid; infer_instance

/-- Numpad layout (numpad_layout.rs, struct NumpadLayout). -/
structure NumpadLayout where
  keys : List (List EVKey)
  numpad_bbox : BBox
  numlock_bbox : BBox
  calc_bbox : BBox
  key_width : Int
  key_height : Int
  deriving DecidableEq, Repr

/-- NumpadLayout::create: cell sizes are truncating divisions of the
hit-box ranges by the grid dimensions (keys[0].len() and keys.len()). -/
def NumpadLayout.create (keys : List (List EVKey))
    (numpad_bbox numlock_bbox calc_bbox : BBox) : NumpadLayout :=
  { keys := keys
    numpad_bbox := numpad_bbox
    numlock_bbox := numlock_bbox
    calc_bbox := calc_bbox
    key_width := numpad_bbox.xrange.tdiv ((keys.headD []).length : Int)
    key_height := numpad_bbox.yrange.tdiv (keys.length : Int) }

/-- Column index computed by NumpadLayout::get_key, including the
`as usize` cast (nonnegative in every contained case). -/
def NumpadLayout.col_of (L : NumpadLayout) (pos : Point) : Nat :=
  ((pos.x - L.numpad_bbox.minx).tdiv L.key_width).toNat

/-- Row index computed by NumpadLayout::get_key. -/
def NumpadLayout.row_of (L : NumpadLayout) (pos : Point) : Nat :=
  ((pos.y - L.numpad_bbox.miny).tdiv L.key_height).toNat

/-- NumpadLayout::get_key.  The source accesses the grid with
get_unchecked after the containment test; the access is modelled as a
checked lookup, so an out-of-range index (undefined behaviour in the
source) is visible as a none result despite containment. -/
def NumpadLayout.get_key (L : NumpadLayout) (pos : Point) : Option EVKey :=
  if L.numpad_bbox.contains pos then
    match L.keys.get? (L.row_of pos) with
    | some r => r.get? (L.col_of pos)
    | none => none
  else none

/-- NumpadLayout::in_numlock_bbox. -/
def NumpadLayout.in_numlock_bbox (L : NumpadLayout) (pos : Point) : Prop :=
  L.numlock_bbox.contains pos

instance (L : NumpadLayout) (pos : Point) : Decidable (L.in_numlock_bbox pos) := by
  unfold NumpadLayout.in_numlock_bbox; infer_instance

/-- NumpadLayout::in_calc_bbox. -/
def NumpadLayout.in_calc_bbox (L : NumpadLayout) (pos : Point) : Prop :=
  L.calc_bbox.contains pos

instance (L : NumpadLayout) (pos : Point) : Decidable (L.in_calc_bbox pos) := by
  unfold NumpadLayout.in_calc_bbox; infer_instance

/-- NumpadLayout::ux433fa. -/
def NumpadLayout.ux433fa (bbox : BBox) : NumpadLayout :=
  NumpadLayout.create
    [[EVKey.KEY_KP7, EVKey.KEY_KP8, EVKey.KEY_KP9, EVKey.KEY_KPSLASH, EVKey.KEY_BACKSPACE],
     [EVKey.KEY_KP4, EVKey.KEY_KP5, EVKey.KEY_KP6, EVKey.KEY_KPASTERISK, EVKey.KEY_BACKSPACE],
     [EVKey.KEY_KP1, EVKey.KEY_KP2, EVKey.KEY_KP3, EVKey.KEY_KPMINUS, EVKey.KEY_KPENTER],
     [EVKey.KEY_KP0, EVKey.KEY_KP0, EVKey.KEY_KPDOT, EVKey.KEY_KPPLUS, EVKey.KEY_KPENTER]]
    (bbox.apply_margins ⟨100, 25, 50, 50⟩)
    (bbox.apply_margins ⟨0, 910, 950, 0⟩)
    (bbox.apply_margins ⟨0, 910, 0, 950⟩)

/-- NumpadLayout::m433ia. -/
def NumpadLayout.m433ia (bbox : BBox) : NumpadLayout :=
  NumpadLayout.create
    [[EVKey.KEY_KP7, EVKey.KEY_KP8, EVKey.KEY_KP9, EVKey.KEY_KPSLASH, EVKey.KEY_BACKSPACE],
     [EVKey.KEY_KP4, EVKey.KEY_KP5, EVKey.KEY_KP6, EVKey.KEY_KPASTERISK, EVKey.KEY_BACKSPACE],
     [EVKey.KEY_KP1, EVKey.KEY_KP2, EVKey.KEY_KP3, EVKey.KEY_KPMINUS, EVKey.KEY_5],
     [EVKey.KEY_KP0, EVKey.KEY_KPDOT, EVKey.KEY_KPENTER, EVKey.KEY_KPPLUS, EVKey.KEY_EQUAL]]
    (bbox.apply_margins ⟨100, 25, 50, 50⟩)
    (bbox.apply_margins ⟨0, 910, 950, 0⟩)
    (bbox.apply_margins ⟨0, 910, 0, 950⟩)

/-- NumpadLayout::ux581. -/
def NumpadLayout.ux581 (bbox : BBox) : NumpadLayout :=
  NumpadLayout.create
    [[EVKey.KEY_KPEQUAL, EVKey.KEY_5, EVKey.KEY_BACKSPACE, EVKey.KEY_BACKSPACE],
     [EVKey.KEY_KP7, EVKey.KEY_KP8, EVKey.KEY_KP9, EVKey.KEY_KPSLASH],
     [EVKey.KEY_KP4, EVKey.KEY_KP5, EVKey.KEY_KP6, EVKey.KEY_KPASTERISK],
     [EVKey.KEY_KP1, EVKey.KEY_KP2, EVKey.KEY_KP3, EVKey.KEY_KPMINUS],
     [EVKey.KEY_KP0, EVKey.KEY_KPDOT, EVKey.KEY_KPENTER, EVKey.KEY_KPPLUS]]
    (bbox.apply_margins ⟨100, 25, 25, 25⟩)
    (bbox.apply_margins ⟨0, 910, 950, 0⟩)
    (bbox.apply_margins ⟨0, 910, 0, 950⟩)

/-- NumpadLayout::gx701; the numlock and calculator zones are disjoint
dummies on this model. -/
def NumpadLayout.gx701 (bbox : BBox) : NumpadLayout :=
  NumpadLayout.create
    [[EVKey.KEY_CALC, EVKey.KEY_KPSLASH, EVKey.KEY_KPASTERISK, EVKey.KEY_KPMINUS],
     [EVKey.KEY_KP7, EVKey.KEY_KP8, EVKey.KEY_KP9, EVKey.KEY_KPPLUS],
     [EVKey.KEY_KP4, EVKey.KEY_KP5, EVKey.KEY_KP6, EVKey.KEY_KPPLUS],
     [EVKey.KEY_KP1, EVKey.KEY_KP2, EVKey.KEY_KP3, EVKey.KEY_KPENTER],
     [EVKey.KEY_KP0, EVKey.KEY_KP0, EVKey.KEY_KPDOT, EVKey.KEY_KPENTER]]
    (bbox.apply_margins ⟨25, 25, 25, 25⟩)
    bbox.disjoint_dummy
    bbox.disjoint_dummy

/-- NumpadLayout::gx531; the numlock and calculator zones are disjoint
dummies on this model. -/
def NumpadLayout.gx531 (bbox : BBox) : NumpadLayout :=
  NumpadLayout.create
    [[EVKey.KEY_BACKSLASH, EVKey.KEY_KPSLASH, EVKey.KEY_KPASTERISK, EVKey.KEY_KPMINUS],
     [EVKey.KEY_KP7, EVKey.KEY_KP8, EVKey.KEY_KP9, EVKey.KEY_KPPLUS],
     [EVKey.KEY_KP4, EVKey.KEY_KP5, EVKey.KEY_KP6, EVKey.KEY_KPPLUS],
     [EVKey.KEY_KP1, EVKey.KEY_KP2, EVKey.KEY_KP3, EVKey.KEY_KPENTER],
     [EVKey.KEY_KP0, EVKey.KEY_KP0, EVKey.KEY_KPDOT, EVKey.KEY_KPENTER]]
    (bbox.apply_margins ⟨5, 5, 5, 5⟩)
    bbox.disjoint_dummy
    bbox.disjoint_dummy

/-- NumpadLayout::um5302ta. -/
def NumpadLayout.um5302ta (bbox : BBox) : NumpadLayout :=
  NumpadLayout.create
    [[EVKey.KEY_KP7, EVKey.KEY_KP8, EVKey.KEY_KP9, EVKey.KEY_KPSLASH, EVKey.KEY_BACKSPACE],
     [EVKey.KEY_KP4, EVKey.KEY_KP5, EVKey.KEY_KP6, EVKey.KEY_KPASTERISK, EVKey.KEY_BACKSPACE],
     [EVKey.KEY_KP1, EVKey.KEY_KP2, EVKey.KEY_KP3, EVKey.KEY_KPMINUS, EVKey.KEY_5],
     [EVKey.KEY_KP0, EVKey.KEY_KPDOT, EVKey.KEY_KPENTER, EVKey.KEY_KPPLUS, EVKey.KEY_EQUAL]]
    (bbox.apply_margins ⟨100, 25, 50, 50⟩)
    (bbox.apply_margins ⟨0, 910, 950, 0⟩)
    (bbox.apply_margins ⟨0, 910, 0, 950⟩)

/-- A concrete catalog layout used as a test vehicle throughout: the
M433IA layout built from the raw touch-surface bbox (0, 1004, 0, 1004). -/
def L1004 : NumpadLayout := NumpadLayout.m433ia (BBox.new 0 1004 0 1004)

/-- Finger phase (main.rs, enum FingerState). -/
inductive FingerState where
  | Lifted | TouchStart | Touching
  deriving DecidableEq, Repr

/-- The key currently considered pressed (main.rs, enum CurKey). -/
inductive CurKey where
  | none
  | numlock
  | calc
  | numpad (key : EVKey)
  deriving DecidableEq, Repr

/-- The mutable core state (main.rs, struct TouchpadState). -/
structure TouchpadState where
  pos : Point
  finger_state : FingerState
  numlock : Bool
  cur_key : CurKey
  tap_started_at : TimeVal
  tap_start_pos : Point
  tapped_outside_numlock_bbox : Bool
  finger_dragged_too_much : Bool
  dragged_finger_lifted_at : TimeVal
  brightness : Brightness
  calc_open : Bool
  deriving DecidableEq, Repr

/-- TouchpadState::default (main.rs, the Default impl). -/
def TouchpadState.default : TouchpadState :=
  { pos := ⟨0, 0⟩
    finger_state := FingerState.Lifted
    numlock := false
    cur_key := CurKey.none
    tap_started_at := ⟨0, 0⟩
    tap_start_pos := ⟨0, 0⟩
    tapped_outside_numlock_bbox := false
    finger_dragged_too_much := false
    dragged_finger_lifted_at := ⟨0, 0⟩
    brightness := Brightness.default
    calc_open := false }

/-- Side effects issued by the state machine to its collaborators:
key emission, brightness writes, device grab/ungrab and the calculator
start/stop actions.  A keypress output stands for the keydown-then-keyup
pair of the KeyEvents::keypress trait method; the calculator actions
abstract the configured key list or external command of start_calc and
stop_calc. -/
inductive Output where
  | keydown (key : EVKey)
  | keyup (key : EVKey)
  | multiKeydown (keys : List EVKey)
  | multiKeyup (keys : List EVKey)
  | keypress (key : EVKey)
  | grab
  | ungrab
  | setBrightness (b : Brightness)
  | calcStartAct
  | calcStopAct
  deriving DecidableEq, Repr

/-- Configuration shape consumed by the machine: whether a calculator
stop command is configured (config.rs, Config::calc_stop_command). -/
structure Config where
  has_calc_stop_command : Bool
  deriving DecidableEq, Repr

/-- Numpad::HOLD_DURATION: 250 ms in microseconds. -/
def HOLD_DURATION : Nat := from_millis 250

/-- Numpad::TAP_JITTER_DIST. -/
def TAP_JITTER_DIST : Int := 10000

/-- Numpad::CALC_DRAG_DIST. -/
def CALC_DRAG_DIST : Int := 90000

/-- Key-down emission for one grid key (main.rs, the keydown arm of
on_tap): composite when the key is flagged as needing multikey. -/
def keydownOutputs (key : EVKey) : List Output :=
  if needs_multikey key then [Output.multiKeydown (multikeysD key)]
  else [Output.keydown key]

/-- Key-up emission for one grid key (main.rs, the keyup arm of
on_lift). -/
def keyupOutputs (key : EVKey) : List Output :=
  if needs_multikey key then [Output.multiKeyup (multikeysD key)]
  else [Output.keyup key]

/-- Numpad::start_calc, as one abstract output. -/
def start_calc (_cfg : Config) : List Output := [Output.calcStartAct]

/-- Numpad::stop_calc: falls back to rerunning the start command when no
stop command is configured. -/
def stop_calc (cfg : Config) : List Output :=
  if cfg.has_calc_stop_command then [Output.calcStopAct] else [Output.calcStartAct]

/-- Numpad::on_lift: optional calculator toggle on a long calc-zone
drag, key-up for a held numpad key, then reset of the current key and
finger phase. -/
def onLift (cfg : Config) (s : TouchpadState) : TouchpadState × List Output :=
  let r1 : TouchpadState × List Output :=
    if s.cur_key = CurKey.calc ∧ CALC_DRAG_DIST ≤ s.pos.dist_sq s.tap_start_pos then
      ({ s with calc_open := !s.calc_open },
       if s.calc_open = false then start_calc cfg else stop_calc cfg)
    else (s, [])
  let s1 := r1.1
  let out2 : List Output :=
    if s1.finger_state = FingerState.Touching then
      match s1.cur_key with
      | CurKey.numpad key => keyupOutputs key
      | _ => []
    else []
  ({ s1 with cur_key := CurKey.none, finger_state := FingerState.Lifted },
   r1.2 ++ out2)

/-- Numpad::on_tap: start-of-tap bookkeeping, grid hit-test under
numlock, then the numlock-zone and calculator-zone overrides. -/
def onTap (L : NumpadLayout) (s : TouchpadState) (time : TimeVal) :
    TouchpadState × List Output :=
  let r1 : TouchpadState × List Output :=
    if s.finger_state = FingerState.Lifted then
      let s1 := { s with finger_state := FingerState.TouchStart
                         tap_started_at := time
                         tap_start_pos := s.pos
                         tapped_outside_numlock_bbox := false
                         finger_dragged_too_much := false }
      if s1.numlock = true then
        match L.get_key s1.pos with
        | some key =>
          ({ s1 with finger_state := FingerState.Touching, cur_key := CurKey.numpad key },
           Output.grab :: keydownOutputs key)
        | Option.none => ({ s1 with cur_key := CurKey.none }, [])
      else (s1, [])
    else (s, [])
  let s2 := r1.1
  if L.in_numlock_bbox s2.pos then
    ({ s2 with finger_state := FingerState.Touching, cur_key := CurKey.numlock }, r1.2)
  else if L.in_calc_bbox s2.pos then
    ({ s2 with finger_state := FingerState.Touching, cur_key := CurKey.calc,
               tapped_outside_numlock_bbox := true }, r1.2)
  else ({ s2 with tapped_outside_numlock_bbox := true }, r1.2)

/-- Numpad::toggle_numlock together with TouchpadState::toggle_numlock:
flip the flag, set brightness (stored level on, Zero plus ungrab off),
and press the numlock key on the emulated keyboard. -/
def toggleNumlock (s : TouchpadState) : TouchpadState × List Output :=
  let s1 := { s with numlock := !s.numlock }
  if s1.numlock = true then
    (s1, [Output.setBrightness s1.brightness, Output.keypress EVKey.KEY_NUMLOCK])
  else
    (s1, [Output.setBrightness Brightness.Zero, Output.ungrab,
          Output.keypress EVKey.KEY_NUMLOCK])

/-- Numpad::handle_numlock_pressed: resynchronize local numlock with the
observed system LED; no numlock keypress is emitted. -/
def handleNumlockPressed (s : TouchpadState) (val : Int) : TouchpadState × List Output :=
  if val = 0 then
    ({ s with numlock := false }, [Output.ungrab, Output.setBrightness Brightness.Zero])
  else
    ({ s with numlock := true }, [Output.setBrightness s.brightness])

/-- Event codes the touchpad handler matches on (main.rs,
handle_touchpad_event); otherCode stands for every ignored code. -/
inductive EventCode where
  | absMtPositionX
  | absMtPositionY
  | btnToolFinger
  | mscTimestamp
  | otherCode
  deriving DecidableEq, Repr

/-- One raw touchpad input event (evdev_rs::InputEvent restricted to the
fields the handler reads). -/
structure InputEvent where
  time : TimeVal
  code : EventCode
  value : Int
  deriving DecidableEq, Repr

/-- The match block of Numpad::handle_touchpad_event, before the
drag-jitter check. -/
def matchStep (L : NumpadLayout) (cfg : Config) (s : TouchpadState)
    (ev : InputEvent) : TouchpadState × List Output :=
  match ev.code with
  | EventCode.absMtPositionX => ({ s with pos := { s.pos with x := ev.value } }, [])
  | EventCode.absMtPositionY => ({ s with pos := { s.pos with y := ev.value } }, [])
  | EventCode.btnToolFinger =>
    if ev.value = 0 then
      if s.finger_dragged_too_much = false then onLift cfg s
      else ({ s with dragged_finger_lifted_at := ev.time }, [])
    else if ev.value = 1 then
      if s.finger_dragged_too_much = false ∨
         HOLD_DURATION ≤ elapsedSince ev.time s.dragged_finger_lifted_at then
        onTap L s ev.time
      else (s, [])
    else (s, [])
  | EventCode.mscTimestamp =>
    let rA : TouchpadState × List Output :=
      if s.finger_state = FingerState.Touching ∧ s.tapped_outside_numlock_bbox = false then
        if L.in_numlock_bbox s.pos then
          if HOLD_DURATION ≤ elapsedSince ev.time s.tap_started_at then
            let r := toggleNumlock s
            ({ r.1 with finger_state := FingerState.TouchStart }, r.2)
          else (s, [])
        else ({ s with tapped_outside_numlock_bbox := true }, [])
      else (s, [])
    let sA := rA.1
    if sA.numlock = true ∧ sA.cur_key = CurKey.calc ∧ L.in_calc_bbox sA.pos ∧
       HOLD_DURATION ≤ elapsedSince ev.time sA.tap_started_at then
      ({ sA with brightness := sA.brightness.next, cur_key := CurKey.none },
       rA.2 ++ [Output.setBrightness sA.brightness.next])
    else (sA, rA.2)
  | EventCode.otherCode => (s, [])

/-- Numpad::handle_touchpad_event: the match block followed by the
drag-jitter check that forces an ungrab and a synthesized lift. -/
def handleTouchpadEvent (L : NumpadLayout) (cfg : Config) (s : TouchpadState)
    (ev : InputEvent) : TouchpadState × List Output :=
  let r := matchStep L cfg s ev
  let s1 := r.1
  if s1.numlock = true ∧ s1.finger_state = FingerState.Touching ∧
     s1.cur_key ≠ CurKey.calc ∧ TAP_JITTER_DIST < s1.tap_start_pos.dist_sq s1.pos then
    let r2 := onLift cfg { s1 with finger_dragged_too_much := true }
    (r2.1, r.2 ++ Output.ungrab :: r2.2)
  else (s1, r.2)

/-- An event from either live source: a touchpad event or a numlock LED
value change from the keyboard stream. -/
inductive SysEvent where
  | tp (ev : InputEvent)
  | led (val : Int)
  deriving DecidableEq, Repr

/-- One step of the event loop on the core state. -/
def stepSys (L : NumpadLayout) (cfg : Config) (s : TouchpadState) :
    SysEvent → TouchpadState × List Output
  | SysEvent.tp ev => handleTouchpadEvent L cfg s ev
  | SysEvent.led val => handleNumlockPressed s val

/-- Run a list of events, collecting all outputs in order. -/
def runSys (L : NumpadLayout) (cfg : Config) (s : TouchpadState) :
    List SysEvent → TouchpadState × List Output
  | [] => (s, [])
  | e :: es =>
    let r := stepSys L cfg s e
    let rest := runSys L cfg r.1 es
    (rest.1, r.2 ++ rest.2)

/-- Run a list of touchpad events only. -/
def runTP (L : NumpadLayout) (cfg : Config) (s : TouchpadState) :
    List InputEvent → TouchpadState × List Output
  | [] => (s, [])
  | ev :: evs =>
    let r := handleTouchpadEvent L cfg s ev
    let rest := runTP L cfg r.1 evs
    (rest.1, r.2 ++ rest.2)

/-- States reachable from the startup state by touchpad and LED events. -/
inductive Reachable (L : NumpadLayout) (cfg : Config) : TouchpadState → Prop where
  | init : Reachable L cfg TouchpadState.default
  | step (s : TouchpadState) (e : SysEvent) :
      Reachable L cfg s → Reachable L cfg (stepSys L cfg s e).1

/-- Indicator that a current-key value is a numpad grid key. -/
def CurKey.isNumpadKey : CurKey → Bool
  | CurKey.numpad _ => true
  | _ => false

/-- Number of special-key identities held as current at once: the
Numlock zone, the Calculator zone, or a numpad grid key. -/
def curCount (s : TouchpadState) : Nat :=
  (if s.cur_key = CurKey.numlock then 1 else 0) +
  (if s.cur_key = CurKey.calc then 1 else 0) +
  (if s.cur_key.isNumpadKey then 1 else 0)

/-- Tick event constructor. -/
def tickEv (t : TimeVal) : InputEvent := ⟨t, EventCode.mscTimestamp, 0⟩

/-- Finger-presence event constructor (BTN_TOOL_FINGER). -/
def fingerEv (value : Int) (t : TimeVal) : InputEvent := ⟨t, EventCode.btnToolFinger, value⟩

/-- Position-sample event constructors. -/
def absXEv (v : Int) (t : TimeVal) : InputEvent := ⟨t, EventCode.absMtPositionX, v⟩

def absYEv (v : Int) (t : TimeVal) : InputEvent := ⟨t, EventCode.absMtPositionY, v⟩

/-- Predicate for a numlock keypress output. -/
def isNLPress (o : Output) : Bool :=
  match o with
  | Output.keypress key => decide (key = EVKey.KEY_NUMLOCK)
  | _ => false

/-- Count of numlock keypresses in an output list. -/
def countNLPress (l : List Output) : Nat := l.countP isNLPress

/-- A configuration value used by the concrete runs. -/
def cfg1 : Config := ⟨true⟩

/-- C1.  The claim asserts that for every catalog layout, containment in
the numpad hit-box forces in-bounds row and column indices for the
unchecked grid access.  It fails: for the M433IA layout built from the
raw bbox (0, 1004, 0, 1004), the point (954, 979) lies inside the numpad
hit-box (inclusive bounds) yet row = 4 and col = 5 while the grid has
only 4 rows of 5 keys each, so the unchecked access of the source reads
out of range (undefined behaviour); the modelled checked access returns
none despite containment. -/
theorem get_key_unchecked_out_of_bounds :
    L1004.numpad_bbox.contains ⟨954, 979⟩ ∧
    L1004.row_of ⟨954, 979⟩ = 4 ∧ L1004.keys.length = 4 ∧
    L1004.col_of ⟨954, 979⟩ = 5 ∧ (L1004.keys.headD []).length = 5 ∧
    L1004.get_key ⟨954, 979⟩ = Option.none := by
  decide

/-- C6.  Brightness::next follows exactly Zero to the default level
(which is Full), then Low, Half, Full, Low, ..., the step from Zero
always rejoins at the default rather than the rotation, and no cycle
step ever produces Zero. -/
theorem brightness_cycle_order :
    Brightness.next Brightness.Zero = Brightness.default ∧
    Brightness.default = Brightness.Full ∧
    Brightness.next Brightness.Low = Brightness.Half ∧
    Brightness.next Brightness.Half = Brightness.Full ∧
    Brightness.next Brightness.Full = Brightness.Low ∧
    ∀ b : Brightness, Brightness.next b ≠ Brightness.Zero := by
  decide

/-- C9.  needs_multikey holds exactly for KEY_5; for every key it
accepts, multikeys returns the fixed two-key sequence LEFTSHIFT then
KEY_5, so the unreachable arm (modelled as none) is never executed at
the guarded call sites, and the state machine emits exactly that
composite sequence on key-down and key-up of such a key. -/
theorem multikey_only_key5 :
    (∀ key : EVKey, needs_multikey key = true ↔ key = EVKey.KEY_5) ∧
    multikeys EVKey.KEY_5 = some [EVKey.KEY_LEFTSHIFT, EVKey.KEY_5] ∧
    (∀ key : EVKey, needs_multikey key = true →
      multikeys key = some [EVKey.KEY_LEFTSHIFT, EVKey.KEY_5] ∧
      keydownOutputs key = [Output.multiKeydown [EVKey.KEY_LEFTSHIFT, EVKey.KEY_5]] ∧
      keyupOutputs key = [Output.multiKeyup [EVKey.KEY_LEFTSHIFT, EVKey.KEY_5]]) := by
  decide

/-- C9 witness: the guarded branch evaluated at the concrete key KEY_5. -/
theorem multikey_only_key5_witness :
    needs_multikey EVKey.KEY_5 = true ∧
    multikeys EVKey.KEY_5 = some [EVKey.KEY_LEFTSHIFT, EVKey.KEY_5] :=
  ⟨by decide, (multikey_only_key5.2.2 EVKey.KEY_5 (by decide)).1⟩

/-- C7.  Toggling numlock twice from any state restores the numlock
flag; one toggle emits exactly one numlock keypress; an LED-observation
resynchronization emits none. -/
theorem numlock_toggle_involution_keypress (s : TouchpadState) (val : Int) :
    (toggleNumlock (toggleNumlock s).1).1.numlock = s.numlock ∧
    countNLPress (toggleNumlock s).2 = 1 ∧
    countNLPress (handleNumlockPressed s val).2 = 0 := by
  refine ⟨?_, ?_, ?_⟩
  · cases h : s.numlock <;>
      simp [toggleNumlock, h]
  · cases h : s.numlock <;>
      simp [toggleNumlock, h, countNLPress, isNLPress]
  · by_cases h : val = 0 <;>
      simp [handleNumlockPressed, h, countNLPress, isNLPress]

/-- C10 counterexample.  elapsed_since is claimed exact for every pair
of ordered timestamps with micro,second fields in range; at
t1 = (-2^63, 0), t2 = (0, 0) all the claim hypotheses hold, the exact
elapsed duration is 2^63 * 10^6 microseconds, but the 64-bit arithmetic
of the source wraps and returns 0. -/
theorem elapsed_since_overflow_counterexample :
    (0 ≤ ((-9223372036854775808 : Int)) →
      True) ∧
    (0 ≤ (0 : Int) ∧ (0 : Int) < 1000000) ∧
    ((-9223372036854775808 : Int) * 1000000 + 0 ≤ (0 : Int) * 1000000 + 0) ∧
    elapsedSince ⟨0, 0⟩ ⟨-9223372036854775808, 0⟩ = 0 ∧
    ((0 : Int) - (-9223372036854775808)) * 1000000 + ((0 : Int) - 0) =
      9223372036854775808000000 ∧
    (0 : Nat) ≠ 9223372036854775808000000 := by
  refine ⟨fun _ => trivial, by decide, by decide, by decide, by decide, by decide⟩

/-- Identity range for 64-bit wrapping. -/
theorem wrap64_eq_of_range (v : Int) (h1 : -9223372036854775808 ≤ v)
    (h2 : v < 9223372036854775808) : wrap64 v = v := by
  unfold wrap64
  rw [Int.emod_eq_of_lt (by omega) (by omega)]
  omega

/-- Exactness of the final u64 cast for in-range nonnegative values. -/
theorem emod64_toNat_eq (v : Int) (h1 : 0 ≤ v) (h2 : v < 18446744073709551616) :
    ((v % 18446744073709551616).toNat : Int) = v := by
  rw [Int.emod_eq_of_lt h1 h2, Int.toNat_of_nonneg h1]

/-- C10 amended.  For timestamps t2 at or after t1, both microsecond
fields in [0, 10^6), both second fields in the signed 64-bit range, and
the exact elapsed duration below 2^63 microseconds, elapsed_since
returns exactly (t2.sec - t1.sec) seconds plus (t2.usec - t1.usec)
microseconds, expressed in whole microseconds. -/
theorem elapsed_since_exact (t2 t1 : TimeVal)
    (hu1l : 0 ≤ t1.tv_usec) (hu1r : t1.tv_usec < 1000000)
    (hu2l : 0 ≤ t2.tv_usec) (hu2r : t2.tv_usec < 1000000)
    (hs1l : -9223372036854775808 ≤ t1.tv_sec) (hs1r : t1.tv_sec < 9223372036854775808)
    (hs2l : -9223372036854775808 ≤ t2.tv_sec) (hs2r : t2.tv_sec < 9223372036854775808)
    (hord : t1.tv_sec * 1000000 + t1.tv_usec ≤ t2.tv_sec * 1000000 + t2.tv_usec)
    (hfit : (t2.tv_sec - t1.tv_sec) * 1000000 + (t2.tv_usec - t1.tv_usec) <
            9223372036854775808) :
    (elapsedSince t2 t1 : Int) =
      (t2.tv_sec - t1.tv_sec) * 1000000 + (t2.tv_usec - t1.tv_usec) := by
  unfold elapsedSince
  by_cases hc : t1.tv_usec ≤ t2.tv_usec
  · rw [if_pos hc]
    have hds : 0 ≤ t2.tv_sec - t1.tv_sec := by nlinarith
    have hdsu : (t2.tv_sec - t1.tv_sec) * 1000000 ≤
        (t2.tv_sec - t1.tv_sec) * 1000000 + (t2.tv_usec - t1.tv_usec) := by omega
    rw [wrap64_eq_of_range (t2.tv_sec - t1.tv_sec) (by omega) (by omega)]
    rw [wrap64_eq_of_range (t2.tv_usec - t1.tv_usec) (by omega) (by omega)]
    rw [wrap64_eq_of_range ((t2.tv_sec - t1.tv_sec) * 1000000) (by nlinarith) (by omega)]
    rw [wrap64_eq_of_range ((t2.tv_sec - t1.tv_sec) * 1000000 + (t2.tv_usec - t1.tv_usec))
      (by omega) (by omega)]
    exact emod64_toNat_eq _ (by omega) (by omega)
  · rw [if_neg hc]
    have hds : 1 ≤ t2.tv_sec - t1.tv_sec := by nlinarith
    have hdsu : (t2.tv_sec - t1.tv_sec - 1) * 1000000 =
        ((t2.tv_sec - t1.tv_sec) * 1000000 + (t2.tv_usec - t1.tv_usec)) -
          (t2.tv_usec - t1.tv_usec + 1000000) := by ring
    have hbound : 0 ≤ (t2.tv_sec - t1.tv_sec) * 1000000 + (t2.tv_usec - t1.tv_usec) := by
      omega
    rw [wrap64_eq_of_range (t2.tv_sec - t1.tv_sec) (by omega) (by omega)]
    rw [wrap64_eq_of_range (t2.tv_usec - t1.tv_usec) (by omega) (by omega)]
    rw [wrap64_eq_of_range (t2.tv_sec - t1.tv_sec - 1) (by omega) (by omega)]
    rw [wrap64_eq_of_range (t2.tv_usec - t1.tv_usec + 1000000) (by omega) (by omega)]
    rw [wrap64_eq_of_range ((t2.tv_sec - t1.tv_sec - 1) * 1000000) (by omega) (by omega)]
    rw [wrap64_eq_of_range ((t2.tv_sec - t1.tv_sec - 1) * 1000000 +
      (t2.tv_usec - t1.tv_usec + 1000000)) (by omega) (by omega)]
    rw [emod64_toNat_eq _ (by omega) (by omega)]
    ring

/-- C10 witness: the repository test vector, elapsed from (100, 200) to
(101, 100) is 999900 microseconds. -/
theorem elapsed_since_exact_witness :
    (elapsedSince ⟨101, 100⟩ ⟨100, 200⟩ : Int) =
      ((101 : Int) - 100) * 1000000 + ((100 : Int) - 200) ∧
    elapsedSince ⟨101, 100⟩ ⟨100, 200⟩ = 999900 :=
  ⟨elapsed_since_exact ⟨101, 100⟩ ⟨100, 200⟩ (by decide) (by decide) (by decide)
    (by decide) (by decide) (by decide) (by decide) (by decide) (by decide) (by decide),
   by decide⟩

/-- Fields of the state that on_lift leaves untouched, and the reset of
the current key and finger phase it always performs. -/
theorem onLift_fields (cfg : Config) (s : TouchpadState) :
    (onLift cfg s).1.cur_key = CurKey.none ∧
    (onLift cfg s).1.finger_state = FingerState.Lifted ∧
    (onLift cfg s).1.finger_dragged_too_much = s.finger_dragged_too_much ∧
    (onLift cfg s).1.tap_started_at = s.tap_started_at ∧
    (onLift cfg s).1.tap_start_pos = s.tap_start_pos ∧
    (onLift cfg s).1.brightness = s.brightness ∧
    (onLift cfg s).1.numlock = s.numlock ∧
    (onLift cfg s).1.pos = s.pos ∧
    (onLift cfg s).1.dragged_finger_lifted_at = s.dragged_finger_lifted_at ∧
    (onLift cfg s).1.tapped_outside_numlock_bbox = s.tapped_outside_numlock_bbox := by
  unfold onLift
  split <;> simp

/-- Outputs of on_lift when a numpad key is held by a touching finger:
exactly the key-up emission for that key. -/
theorem onLift_outputs_numpad (cfg : Config) (s : TouchpadState) (key : EVKey)
    (hf : s.finger_state = FingerState.Touching)
    (hk : s.cur_key = CurKey.numpad key) :
    (onLift cfg s).2 = keyupOutputs key := by
  unfold onLift
  rw [if_neg (by simp [hk])]
  simp [hf, hk]

/-- Fields of the state that on_tap leaves untouched. -/
theorem onTap_fields (L : NumpadLayout) (s : TouchpadState) (t : TimeVal) :
    (onTap L s t).1.brightness = s.brightness ∧
    (onTap L s t).1.numlock = s.numlock ∧
    (onTap L s t).1.calc_open = s.calc_open ∧
    (onTap L s t).1.pos = s.pos ∧
    (onTap L s t).1.dragged_finger_lifted_at = s.dragged_finger_lifted_at := by
  unfold onTap
  rcases hg : L.get_key s.pos with _ | key <;>
  rcases hn : s.numlock with _ | _ <;>
  simp only [hg, hn] <;>
  split_ifs <;> simp_all

/-- A tap processed from the Lifted phase records the event time as the
tap start. -/
theorem onTap_tap_started_at (L : NumpadLayout) (s : TouchpadState) (t : TimeVal)
    (hL : s.finger_state = FingerState.Lifted) :
    (onTap L s t).1.tap_started_at = t := by
  unfold onTap
  rcases hg : L.get_key s.pos with _ | key <;>
  rcases hn : s.numlock with _ | _ <;>
  simp only [hg, hn, hL] <;>
  split_ifs <;> simp_all

/-- Inductive invariant: a current numpad key implies a touching finger
and a tap already marked outside the numlock zone. -/
def NumpadKeyInv (s : TouchpadState) : Prop :=
  ∀ k, s.cur_key = CurKey.numpad k →
    s.finger_state = FingerState.Touching ∧ s.tapped_outside_numlock_bbox = true

theorem numpadKeyInv_onLift (cfg : Config) (s : TouchpadState) :
    NumpadKeyInv (onLift cfg s).1 := by
  intro k hk
  rw [(onLift_fields cfg s).1] at hk
  simp at hk

theorem numpadKeyInv_onTap (L : NumpadLayout) (s : TouchpadState) (t : TimeVal)
    (h : NumpadKeyInv s) : NumpadKeyInv (onTap L s t).1 := by
  intro k
  unfold onTap
  rcases hg : L.get_key s.pos with _ | key <;>
  rcases hn : s.numlock with _ | _ <;>
  by_cases h1 : s.finger_state = FingerState.Lifted <;>
  by_cases h3 : L.in_numlock_bbox s.pos <;>
  by_cases h4 : L.in_calc_bbox s.pos <;>
  simp only [hg, hn, h1, h3, h4] <;>
  split_ifs <;>
  intro hk <;>
  simp_all <;>
  first
    | exact (h k hk).1
    | exact absurd (h k hk).1 (by simp_all)

theorem numpadKeyInv_matchStep (L : NumpadLayout) (cfg : Config) (s : TouchpadState)
    (ev : InputEvent) (h : NumpadKeyInv s) : NumpadKeyInv (matchStep L cfg s ev).1 := by
  unfold matchStep
  rcases ev with ⟨time, code, value⟩
  cases code
  case absMtPositionX =>
    intro k hk
    simp at hk
    exact (h k hk)
  case absMtPositionY =>
    intro k hk
    simp at hk
    exact (h k hk)
  case btnToolFinger =>
    by_cases h0 : value = 0
    · simp only [h0, if_pos]
      by_cases hd : s.finger_dragged_too_much = false
      · simp only [hd, if_pos]
        exact numpadKeyInv_onLift cfg s
      · simp only [hd, if_neg, if_false]
        intro k hk
        simp at hk
        exact (h k hk)
    · simp only [h0, if_neg, if_false]
      by_cases h1 : value = 1
      · simp only [h1, if_pos]
        split
        · exact numpadKeyInv_onTap L s time h
        · exact h
      · simp only [h1, if_neg, if_false]
        exact h
  case mscTimestamp =>
    have hB : ∀ s2 : TouchpadState, NumpadKeyInv s2 → NumpadKeyInv
        (if s2.numlock = true ∧ s2.cur_key = CurKey.calc ∧ L.in_calc_bbox s2.pos ∧
            HOLD_DURATION ≤ elapsedSince time s2.tap_started_at then
          ({ s2 with brightness := s2.brightness.next, cur_key := CurKey.none },
            ([] : List Output) ++ [Output.setBrightness s2.brightness.next])
         else (s2, [])).1 := by
      intro s2 h2
      split
      · intro k hk; simp at hk
      · exact h2
    by_cases hA : s.finger_state = FingerState.Touching ∧
        s.tapped_outside_numlock_bbox = false
    · by_cases h3 : L.in_numlock_bbox s.pos
      · by_cases h4 : HOLD_DURATION ≤ elapsedSince time s.tap_started_at
        · simp only [hA, h3, h4, if_pos, and_self, if_true]
          split
          · intro k hk; simp at hk
          · intro k hk
            simp only at hk
            unfold toggleNumlock at hk
            rcases hn : (!s.numlock) with _ | _ <;> simp [hn] at hk <;>
              exact absurd ((h k hk).2) (by rw [hA.2]; simp)
        · simp only [hA, h3, h4, if_pos, and_self, if_true, if_neg, if_false]
          split
          · intro k hk; simp at hk
          · exact h
      · simp only [hA, h3, if_pos, and_self, if_true, if_neg, if_false]
        split
        · intro k hk; simp at hk
        · intro k hk
          exact ⟨rfl, rfl⟩
    · simp only [hA, if_neg, if_false]
      split
      · intro k hk; simp at hk
      · exact h
  case otherCode => exact h

theorem numpadKeyInv_handleTouchpadEvent (L : NumpadLayout) (cfg : Config)
    (s : TouchpadState) (ev : InputEvent) (h : NumpadKeyInv s) :
    NumpadKeyInv (handleTouchpadEvent L cfg s ev).1 := by
  simp only [handleTouchpadEvent]
  split
  · exact numpadKeyInv_onLift cfg _
  · exact numpadKeyInv_matchStep L cfg s ev h

theorem numpadKeyInv_stepSys (L : NumpadLayout) (cfg : Config) (s : TouchpadState)
    (e : SysEvent) (h : NumpadKeyInv s) : NumpadKeyInv (stepSys L cfg s e).1 := by
  cases e
  case tp ev => exact numpadKeyInv_handleTouchpadEvent L cfg s ev h
  case led val =>
    show NumpadKeyInv (handleNumlockPressed s val).1
    unfold handleNumlockPressed
    split <;> exact fun k hk => h k hk

theorem numpadKeyInv_reachable (L : NumpadLayout) (cfg : Config) (s : TouchpadState)
    (h : Reachable L cfg s) : NumpadKeyInv s := by
  induction h with
  | init => intro k hk; simp [TouchpadState.default] at hk
  | step s e hs ih => exact numpadKeyInv_stepSys L cfg s e ih

/-- C2 amended.  In every reachable state at most one of the Numlock
zone, the Calculator zone and a numpad grid key is current (the current
key is a single sum-type value), and a current numpad key implies the
finger phase is Touching.  The numlock conjunct of the original claim is
dropped: an LED-off resynchronization can clear numlock while a numpad
key stays current. -/
theorem cur_key_invariant (L : NumpadLayout) (cfg : Config) (s : TouchpadState)
    (h : Reachable L cfg s) :
    curCount s ≤ 1 ∧
    ∀ k, s.cur_key = CurKey.numpad k → s.finger_state = FingerState.Touching := by
  refine ⟨?_, fun k hk => (numpadKeyInv_reachable L cfg s h k hk).1⟩
  unfold curCount CurKey.isNumpadKey
  rcases s.cur_key <;> simp

/-- C2 witness: the invariant evaluated at the reachable startup state. -/
theorem cur_key_invariant_witness :
    curCount TouchpadState.default ≤ 1 ∧
    ∀ k, TouchpadState.default.cur_key = CurKey.numpad k →
      TouchpadState.default.finger_state = FingerState.Touching :=
  cur_key_invariant L1004 cfg1 TouchpadState.default Reachable.init

/-- Event sequence reaching a state that refutes the numlock conjunct of
C2: turn numlock on via the LED, touch a grid key, then observe the LED
go off. -/
def c2events : List SysEvent :=
  [SysEvent.led 1,
   SysEvent.tp (absXEv 500 ⟨0, 0⟩),
   SysEvent.tp (absYEv 500 ⟨0, 0⟩),
   SysEvent.tp (fingerEv 1 ⟨1, 0⟩),
   SysEvent.led 0]

/-- Every run from the startup state ends in a reachable state. -/
theorem runSys_reachable (L : NumpadLayout) (cfg : Config) (s : TouchpadState)
    (h : Reachable L cfg s) :
    ∀ es : List SysEvent, Reachable L cfg (runSys L cfg s es).1 := by
  intro es
  induction es generalizing s with
  | nil => exact h
  | cons e es ih => exact ih (stepSys L cfg s e).1 (Reachable.step s e h)

/-- C2 counterexample.  The state reached by c2events is reachable, its
current key is the numpad key KP6, yet numlock is false: the claim that
a current numpad key implies numlock is true fails on the code. -/
theorem cur_key_numpad_with_numlock_off :
    Reachable L1004 cfg1 (runSys L1004 cfg1 TouchpadState.default c2events).1 ∧
    (runSys L1004 cfg1 TouchpadState.default c2events).1.cur_key =
      CurKey.numpad EVKey.KEY_KP6 ∧
    (runSys L1004 cfg1 TouchpadState.default c2events).1.numlock = false :=
  ⟨runSys_reachable L1004 cfg1 TouchpadState.default Reachable.init c2events,
   by decide, by decide⟩

/-- Event sequence producing a synthesized (drag-triggered) lift: turn
numlock on, touch a grid key at (500, 500), then drag to x = 800 at
time (1, 100000), which exceeds the jitter threshold and fires the
synthesized lift. -/
def c3events : List SysEvent :=
  [SysEvent.led 1,
   SysEvent.tp (absXEv 500 ⟨0, 0⟩),
   SysEvent.tp (absYEv 500 ⟨0, 0⟩),
   SysEvent.tp (fingerEv 1 ⟨1, 0⟩),
   SysEvent.tp (absXEv 800 ⟨1, 100000⟩)]

/-- The state after the synthesized lift. -/
def c3state : TouchpadState := (runSys L1004 cfg1 TouchpadState.default c3events).1

/-- C3 counterexample.  After the synthesized lift of c3events (fired at
event time (1, 100000)), a real finger-up at (10, 0) arrives 8.9 seconds
later, far beyond the 250 ms hold threshold, so by the claim it should
take effect; instead the code performs no lift processing: it only
records the finger-up timestamp and emits nothing, and a finger-down
100 ms after that finger-up is also ignored (no new tap is started, the
recorded tap start stays (1, 0)). -/
theorem real_lift_suppressed_despite_elapsed :
    c3state.finger_dragged_too_much = true ∧
    c3state.finger_state = FingerState.Lifted ∧
    HOLD_DURATION ≤ elapsedSince ⟨10, 0⟩ ⟨1, 100000⟩ ∧
    handleTouchpadEvent L1004 cfg1 c3state (fingerEv 0 ⟨10, 0⟩) =
      ({ c3state with dragged_finger_lifted_at := ⟨10, 0⟩ }, []) ∧
    (runSys L1004 cfg1 TouchpadState.default
        (c3events ++ [SysEvent.tp (fingerEv 0 ⟨10, 0⟩),
                      SysEvent.tp (fingerEv 1 ⟨10, 100000⟩)])).1.tap_started_at =
      ⟨1, 0⟩ := by
  refine ⟨by decide, by decide, by decide, by decide, by decide⟩

/-- C3 amended.  After a synthesized (drag-triggered) lift, a subsequent
real finger-up performs no lift processing regardless of elapsed time:
it only records its own timestamp.  The hold threshold instead gates the
next finger-down, which is ignored while less than 250 ms have elapsed
since the recorded real finger-up time and starts a new tap once at
least 250 ms have elapsed; the real finger-up timestamp (not the
synthesized lift time) is what the code tracks. -/
theorem synthesized_lift_rearm (L : NumpadLayout) (cfg : Config) (s : TouchpadState)
    (t t2 t3 : TimeVal)
    (hdrag : s.finger_dragged_too_much = true)
    (hlift : s.finger_state = FingerState.Lifted)
    (hlt : elapsedSince t2 t < HOLD_DURATION)
    (hge : HOLD_DURATION ≤ elapsedSince t3 t) :
    handleTouchpadEvent L cfg s (fingerEv 0 t) =
      ({ s with dragged_finger_lifted_at := t }, []) ∧
    handleTouchpadEvent L cfg { s with dragged_finger_lifted_at := t } (fingerEv 1 t2) =
      ({ s with dragged_finger_lifted_at := t }, []) ∧
    (handleTouchpadEvent L cfg { s with dragged_finger_lifted_at := t }
        (fingerEv 1 t3)).1.tap_started_at = t3 := by
  refine ⟨?_, ?_, ?_⟩
  · simp [handleTouchpadEvent, matchStep, fingerEv, hdrag, hlift]
  · have hn2 : ¬ (HOLD_DURATION ≤ elapsedSince t2 t) := Nat.not_le.mpr hlt
    simp [handleTouchpadEvent, matchStep, fingerEv, hdrag, hlift, hn2]
  · have hm : (matchStep L cfg { s with dragged_finger_lifted_at := t }
        (fingerEv 1 t3)).1.tap_started_at = t3 := by
      simp only [matchStep, fingerEv, if_true, if_false]
      rw [if_pos (Or.inr hge)]
      exact onTap_tap_started_at L _ t3 hlift
    simp only [handleTouchpadEvent]
    split
    · rw [(onLift_fields cfg _).2.2.2.1]
      exact hm
    · exact hm

/-- A concrete post-synthesized-lift state for the C3 witness. -/
def c3wstate : TouchpadState :=
  { TouchpadState.default with finger_dragged_too_much := true }

/-- C3 witness for the amended theorem: a concrete post-drag state with
a finger-up at (1, 0), a rejected finger-down 100 ms later and an
accepted finger-down one second later. -/
theorem synthesized_lift_rearm_witness :
    handleTouchpadEvent L1004 cfg1 c3wstate (fingerEv 0 ⟨1, 0⟩) =
      ({ c3wstate with dragged_finger_lifted_at := ⟨1, 0⟩ }, []) ∧
    handleTouchpadEvent L1004 cfg1 { c3wstate with dragged_finger_lifted_at := ⟨1, 0⟩ }
        (fingerEv 1 ⟨1, 100000⟩) =
      ({ c3wstate with dragged_finger_lifted_at := ⟨1, 0⟩ }, []) ∧
    (handleTouchpadEvent L1004 cfg1 { c3wstate with dragged_finger_lifted_at := ⟨1, 0⟩ }
        (fingerEv 1 ⟨2, 0⟩)).1.tap_started_at = ⟨2, 0⟩ :=
  synthesized_lift_rearm L1004 cfg1 c3wstate
    ⟨1, 0⟩ ⟨1, 100000⟩ ⟨2, 0⟩ (by decide) (by decide) (by decide) (by decide)

/-- C4.  Whenever, after the match block of an event, numlock is active,
the finger phase is Touching, the current key is not the Calculator
zone, and the squared drag distance from tap start exceeds the jitter
threshold, the handler marks the dragged-too-much flag, issues an
ungrab, and performs the lift: finger Lifted, current key cleared, and
the key-up emission (composite when flagged) for a held numpad key, all
without any finger-up event. -/
theorem drag_jitter_forces_lift (L : NumpadLayout) (cfg : Config) (s : TouchpadState)
    (ev : InputEvent)
    (h : (matchStep L cfg s ev).1.numlock = true ∧
         (matchStep L cfg s ev).1.finger_state = FingerState.Touching ∧
         (matchStep L cfg s ev).1.cur_key ≠ CurKey.calc ∧
         TAP_JITTER_DIST <
           (matchStep L cfg s ev).1.tap_start_pos.dist_sq (matchStep L cfg s ev).1.pos) :
    (handleTouchpadEvent L cfg s ev).1.finger_dragged_too_much = true ∧
    (handleTouchpadEvent L cfg s ev).1.finger_state = FingerState.Lifted ∧
    (handleTouchpadEvent L cfg s ev).1.cur_key = CurKey.none ∧
    Output.ungrab ∈ (handleTouchpadEvent L cfg s ev).2 ∧
    ∀ key, (matchStep L cfg s ev).1.cur_key = CurKey.numpad key →
      ∀ o ∈ keyupOutputs key, o ∈ (handleTouchpadEvent L cfg s ev).2 := by
  have hstep : handleTouchpadEvent L cfg s ev =
      ((onLift cfg { (matchStep L cfg s ev).1 with finger_dragged_too_much := true }).1,
       (matchStep L cfg s ev).2 ++ Output.ungrab ::
         (onLift cfg
           { (matchStep L cfg s ev).1 with finger_dragged_too_much := true }).2) := by
    simp only [handleTouchpadEvent]
    rw [if_pos h]
  rw [hstep]
  refine ⟨?_, (onLift_fields _ _).2.1, (onLift_fields _ _).1, ?_, ?_⟩
  · rw [(onLift_fields _ _).2.2.1]
  · simp
  · intro key hkey o ho
    have houts : (onLift cfg
        { (matchStep L cfg s ev).1 with finger_dragged_too_much := true }).2 =
        keyupOutputs key := by
      exact onLift_outputs_numpad cfg _ key h.2.1 hkey
    rw [houts]
    simp [ho]

/-- A state with numlock on, a touching finger at (500, 500) and KP6
held, for the C4 witness. -/
def c4state : TouchpadState :=
  { TouchpadState.default with
      numlock := true
      finger_state := FingerState.Touching
      cur_key := CurKey.numpad EVKey.KEY_KP6
      tap_start_pos := ⟨500, 500⟩
      pos := ⟨500, 500⟩ }

/-- C4 witness: the state c4state receives a position sample moving x
to 800; the drag exceeds the jitter threshold and the handler ungrabs
and releases the key at once. -/
theorem drag_jitter_forces_lift_witness :
    ((matchStep L1004 cfg1 c4state (absXEv 800 ⟨1, 0⟩)).1.numlock = true ∧
      TAP_JITTER_DIST <
        (matchStep L1004 cfg1 c4state (absXEv 800 ⟨1, 0⟩)).1.tap_start_pos.dist_sq
          (matchStep L1004 cfg1 c4state (absXEv 800 ⟨1, 0⟩)).1.pos) ∧
    Output.ungrab ∈ (handleTouchpadEvent L1004 cfg1 c4state (absXEv 800 ⟨1, 0⟩)).2 ∧
    Output.keyup EVKey.KEY_KP6 ∈
      (handleTouchpadEvent L1004 cfg1 c4state (absXEv 800 ⟨1, 0⟩)).2 :=
  ⟨⟨by decide, by decide⟩,
   (drag_jitter_forces_lift L1004 cfg1 c4state (absXEv 800 ⟨1, 0⟩)
      ⟨by decide, by decide, by decide, by decide⟩).2.2.2.1,
   (drag_jitter_forces_lift L1004 cfg1 c4state (absXEv 800 ⟨1, 0⟩)
      ⟨by decide, by decide, by decide, by decide⟩).2.2.2.2
      EVKey.KEY_KP6 (by decide) (Output.keyup EVKey.KEY_KP6) (by decide)⟩

/-- The match block changes the stored brightness only by cycling it. -/
theorem brightness_matchStep (L : NumpadLayout) (cfg : Config) (s : TouchpadState)
    (ev : InputEvent) :
    (matchStep L cfg s ev).1.brightness = s.brightness ∨
    (matchStep L cfg s ev).1.brightness = Brightness.next s.brightness := by
  unfold matchStep
  rcases ev with ⟨time, code, value⟩
  cases code
  case absMtPositionX => left; rfl
  case absMtPositionY => left; rfl
  case btnToolFinger =>
    split_ifs <;>
      first
        | (left; rfl)
        | (left; exact (onLift_fields _ _).2.2.2.2.2.1)
        | (left; exact (onTap_fields _ _ _).1)
  case mscTimestamp =>
    by_cases hA : s.finger_state = FingerState.Touching ∧
        s.tapped_outside_numlock_bbox = false <;>
    by_cases h3 : L.in_numlock_bbox s.pos <;>
    by_cases h4 : HOLD_DURATION ≤ elapsedSince time s.tap_started_at <;>
    rcases hn : s.numlock with _ | _ <;>
    simp only [hA, h3, h4, hn, if_true, if_false, and_self] <;>
    split_ifs <;>
    simp_all [toggleNumlock]
  case otherCode => left; rfl

theorem brightness_handleTouchpadEvent (L : NumpadLayout) (cfg : Config)
    (s : TouchpadState) (ev : InputEvent) :
    (handleTouchpadEvent L cfg s ev).1.brightness = s.brightness ∨
    (handleTouchpadEvent L cfg s ev).1.brightness = Brightness.next s.brightness := by
  simp only [handleTouchpadEvent]
  split
  · rw [(onLift_fields _ _).2.2.2.2.2.1]
    exact brightness_matchStep L cfg s ev
  · exact brightness_matchStep L cfg s ev

theorem brightness_stepSys (L : NumpadLayout) (cfg : Config) (s : TouchpadState)
    (e : SysEvent) :
    (stepSys L cfg s e).1.brightness = s.brightness ∨
    (stepSys L cfg s e).1.brightness = Brightness.next s.brightness := by
  cases e
  case tp ev => exact brightness_handleTouchpadEvent L cfg s ev
  case led val =>
    show (handleNumlockPressed s val).1.brightness = s.brightness ∨ _
    unfold handleNumlockPressed
    split <;> (left; rfl)

theorem brightness_next_ne_zero : ∀ b : Brightness, Brightness.next b ≠ Brightness.Zero := by
  decide

/-- In every reachable state the stored brightness level is non-zero:
it starts at Full and is only ever replaced by a cycle step, which
never produces Zero. -/
theorem brightness_ne_zero (L : NumpadLayout) (cfg : Config) (s : TouchpadState)
    (h : Reachable L cfg s) : s.brightness ≠ Brightness.Zero := by
  induction h with
  | init => decide
  | step s e hs ih =>
    rcases brightness_stepSys L cfg s e with h1 | h1
    · rw [h1]; exact ih
    · rw [h1]; exact brightness_next_ne_zero s.brightness

/-- C8.  In every reachable state, a numlock toggle that turns numlock
on writes the stored (non-zero) brightness level and issues neither a
grab nor an ungrab; a toggle that turns numlock off writes the Zero
level and issues a device ungrab. -/
theorem toggle_numlock_side_effects (L : NumpadLayout) (cfg : Config) (s : TouchpadState)
    (h : Reachable L cfg s) :
    (s.numlock = false →
      (toggleNumlock s).2 =
        [Output.setBrightness s.brightness, Output.keypress EVKey.KEY_NUMLOCK] ∧
      s.brightness ≠ Brightness.Zero ∧
      Output.grab ∉ (toggleNumlock s).2 ∧ Output.ungrab ∉ (toggleNumlock s).2) ∧
    (s.numlock = true →
      (toggleNumlock s).2 =
        [Output.setBrightness Brightness.Zero, Output.ungrab,
         Output.keypress EVKey.KEY_NUMLOCK]) := by
  constructor
  · intro hn
    refine ⟨?_, brightness_ne_zero L cfg s h, ?_, ?_⟩ <;>
      simp [toggleNumlock, hn]
  · intro hn
    simp [toggleNumlock, hn]

/-- C8 witness: the toggle side effects evaluated at the reachable
startup state, where numlock is off and the stored level is Full. -/
theorem toggle_numlock_side_effects_witness :
    (TouchpadState.default.numlock = false →
      (toggleNumlock TouchpadState.default).2 =
        [Output.setBrightness TouchpadState.default.brightness,
         Output.keypress EVKey.KEY_NUMLOCK] ∧
      TouchpadState.default.brightness ≠ Brightness.Zero ∧
      Output.grab ∉ (toggleNumlock TouchpadState.default).2 ∧
      Output.ungrab ∉ (toggleNumlock TouchpadState.default).2) ∧
    (TouchpadState.default.numlock = true →
      (toggleNumlock TouchpadState.default).2 =
        [Output.setBrightness Brightness.Zero, Output.ungrab,
         Output.keypress EVKey.KEY_NUMLOCK]) :=
  toggle_numlock_side_effects L1004 cfg1 TouchpadState.default Reachable.init

theorem dist_sq_self (p : Point) : p.dist_sq p = 0 := by
  simp [Point.dist_sq, wrap32]

theorem countNLPress_append (a b : List Output) :
    countNLPress (a ++ b) = countNLPress a + countNLPress b := by
  simp [countNLPress, List.countP_append]

theorem countNLPress_toggleNumlock (s : TouchpadState) :
    countNLPress (toggleNumlock s).2 = 1 := by
  cases hn : s.numlock <;> simp [toggleNumlock, hn, countNLPress, isNLPress]

theorem countNLPress_keydownOutputs (key : EVKey) :
    countNLPress (keydownOutputs key) = 0 := by
  unfold keydownOutputs
  split_ifs <;> simp [countNLPress, isNLPress]

theorem countNLPress_cons (o : Output) (l : List Output) :
    countNLPress (o :: l) = countNLPress l + (if isNLPress o then 1 else 0) := by
  by_cases h : isNLPress o <;> simp [countNLPress, List.countP_cons, h]

theorem countNLPress_nil : countNLPress [] = 0 := rfl

theorem toggleNumlock_state (s : TouchpadState) :
    (toggleNumlock s).1 = { s with numlock := !s.numlock } := by
  simp only [toggleNumlock]
  split <;> rfl

/-- A tick during a numlock-zone hold before the threshold: no state
change and no output. -/
theorem tick_pre (L : NumpadLayout) (cfg : Config) (s : TouchpadState) (t : TimeVal)
    (hf : s.finger_state = FingerState.Touching)
    (hck : s.cur_key = CurKey.numlock)
    (hto : s.tapped_outside_numlock_bbox = false)
    (hin : L.in_numlock_bbox s.pos)
    (hjit : s.tap_start_pos = s.pos)
    (ht : elapsedSince t s.tap_started_at < HOLD_DURATION) :
    handleTouchpadEvent L cfg s (tickEv t) = (s, []) := by
  have hne : ¬ (HOLD_DURATION ≤ elapsedSince t s.tap_started_at) := Nat.not_le.mpr ht
  simp only [handleTouchpadEvent, matchStep, tickEv]
  split_ifs <;> simp_all [dist_sq_self, TAP_JITTER_DIST]

/-- The first tick at or past the threshold during a numlock-zone hold:
numlock toggles, the phase is re-armed to TouchStart, and the toggle
outputs (with exactly one numlock keypress) are emitted. -/
theorem tick_toggle (L : NumpadLayout) (cfg : Config) (s : TouchpadState) (t : TimeVal)
    (hf : s.finger_state = FingerState.Touching)
    (hck : s.cur_key = CurKey.numlock)
    (hto : s.tapped_outside_numlock_bbox = false)
    (hin : L.in_numlock_bbox s.pos)
    (ht : HOLD_DURATION ≤ elapsedSince t s.tap_started_at) :
    handleTouchpadEvent L cfg s (tickEv t) =
      ({ s with numlock := !s.numlock, finger_state := FingerState.TouchStart },
       (toggleNumlock s).2) := by
  simp only [handleTouchpadEvent, matchStep, tickEv]
  split_ifs <;> simp_all [toggleNumlock_state, dist_sq_self, TAP_JITTER_DIST]

/-- A tick after the toggle re-armed the phase to TouchStart: no state
change and no output. -/
theorem tick_post (L : NumpadLayout) (cfg : Config) (s : TouchpadState) (t : TimeVal)
    (hf : s.finger_state = FingerState.TouchStart)
    (hck : s.cur_key = CurKey.numlock) :
    handleTouchpadEvent L cfg s (tickEv t) = (s, []) := by
  simp only [handleTouchpadEvent, matchStep, tickEv]
  split_ifs <;> simp_all

/-- Running ticks that each leave the state unchanged and emit nothing
leaves the whole run unchanged. -/
theorem runTP_ticks_id (L : NumpadLayout) (cfg : Config) (s : TouchpadState)
    (ts : List TimeVal)
    (h : ∀ t ∈ ts, handleTouchpadEvent L cfg s (tickEv t) = (s, [])) :
    runTP L cfg s (ts.map tickEv) = (s, []) := by
  induction ts with
  | nil => rfl
  | cons t ts ih =>
    simp only [List.map_cons, runTP]
    rw [h t (by simp)]
    rw [ih (fun u hu => h u (by simp [hu]))]
    simp

theorem runTP_append (L : NumpadLayout) (cfg : Config) (s : TouchpadState)
    (xs ys : List InputEvent) :
    runTP L cfg s (xs ++ ys) =
      ((runTP L cfg (runTP L cfg s xs).1 ys).1,
       (runTP L cfg s xs).2 ++ (runTP L cfg (runTP L cfg s xs).1 ys).2) := by
  induction xs generalizing s with
  | nil => simp [runTP]
  | cons x xs ih =>
    simp only [List.cons_append, runTP, List.append_eq]
    rw [ih]
    simp [List.append_assoc]

/-- The state reached by a finger-down inside the numlock zone: phase
Touching, current key Numlock-zone, tap bookkeeping reset. -/
def tapStartNumlockState (s0 : TouchpadState) (t0 : TimeVal) : TouchpadState :=
  { s0 with finger_state := FingerState.Touching
            cur_key := CurKey.numlock
            tap_started_at := t0
            tap_start_pos := s0.pos
            tapped_outside_numlock_bbox := false
            finger_dragged_too_much := false }

/-- A finger-down inside the numlock zone from the Lifted phase reaches
tapStartNumlockState and emits no numlock keypress. -/
theorem fingerDown_numlock_zone (L : NumpadLayout) (cfg : Config) (s0 : TouchpadState)
    (t0 : TimeVal)
    (h1 : s0.finger_state = FingerState.Lifted)
    (h2 : s0.finger_dragged_too_much = false)
    (h3 : L.in_numlock_bbox s0.pos) :
    (handleTouchpadEvent L cfg s0 (fingerEv 1 t0)).1 = tapStartNumlockState s0 t0 ∧
    countNLPress (handleTouchpadEvent L cfg s0 (fingerEv 1 t0)).2 = 0 := by
  have hm : matchStep L cfg s0 (fingerEv 1 t0) = onTap L s0 t0 := by
    simp only [matchStep, fingerEv]
    rw [if_neg (show ¬ ((1 : Int) = 0) by norm_num), if_pos trivial,
        if_pos (Or.inl h2)]
  have htap : (onTap L s0 t0).1 = tapStartNumlockState s0 t0 := by
    unfold onTap tapStartNumlockState
    rcases hg : L.get_key s0.pos with _ | key <;>
    rcases hn : s0.numlock with _ | _ <;>
    simp only [hg, hn, h1, if_true, if_false] <;>
    split_ifs <;> simp_all
  have houts : countNLPress (onTap L s0 t0).2 = 0 := by
    unfold onTap
    rcases hg : L.get_key s0.pos with _ | key <;>
    rcases hn : s0.numlock with _ | _ <;>
    simp only [hg, hn, h1, if_true, if_false] <;>
    split_ifs <;>
    simp_all [countNLPress_cons, countNLPress_nil, countNLPress_keydownOutputs, isNLPress]
  have hjit : ¬ ((onTap L s0 t0).1.numlock = true ∧
      (onTap L s0 t0).1.finger_state = FingerState.Touching ∧
      (onTap L s0 t0).1.cur_key ≠ CurKey.calc ∧
      TAP_JITTER_DIST <
        (onTap L s0 t0).1.tap_start_pos.dist_sq (onTap L s0 t0).1.pos) := by
    rw [htap]
    intro hc
    have hd := hc.2.2.2
    simp [tapStartNumlockState, dist_sq_self, TAP_JITTER_DIST] at hd
  constructor
  · simp only [handleTouchpadEvent, hm]
    rw [if_neg hjit]
    exact htap
  · simp only [handleTouchpadEvent, hm]
    rw [if_neg hjit]
    exact houts

/-- The state after the hold toggled numlock: like tapStartNumlockState
but with numlock flipped and the phase re-armed to TouchStart. -/
def toggledNumlockState (s0 : TouchpadState) (t0 : TimeVal) : TouchpadState :=
  { s0 with finger_state := FingerState.TouchStart
            cur_key := CurKey.numlock
            tap_started_at := t0
            tap_start_pos := s0.pos
            tapped_outside_numlock_bbox := false
            finger_dragged_too_much := false
            numlock := !s0.numlock }

/-- C5.  For a tap that starts in the Lifted phase inside the numlock
zone and stays stationary there, the first periodic tick whose elapsed
time since tap start reaches 250 ms toggles numlock exactly once (one
numlock keypress in the whole run), re-arms the phase to TouchStart, and
no later tick of the same un-lifted tap toggles it again. -/
theorem numlock_hold_toggles_once (L : NumpadLayout) (cfg : Config) (s0 : TouchpadState)
    (t0 : TimeVal) (ts1 : List TimeVal) (ti : TimeVal) (ts2 : List TimeVal)
    (h1 : s0.finger_state = FingerState.Lifted)
    (h2 : s0.finger_dragged_too_much = false)
    (h3 : L.in_numlock_bbox s0.pos)
    (hpre : ∀ t ∈ ts1, elapsedSince t t0 < HOLD_DURATION)
    (hti : HOLD_DURATION ≤ elapsedSince ti t0) :
    (runTP L cfg s0 (fingerEv 1 t0 :: (ts1 ++ ti :: ts2).map tickEv)).1.numlock
      = !s0.numlock ∧
    (runTP L cfg s0 (fingerEv 1 t0 :: (ts1 ++ ti :: ts2).map tickEv)).1.finger_state
      = FingerState.TouchStart ∧
    countNLPress (runTP L cfg s0 (fingerEv 1 t0 :: (ts1 ++ ti :: ts2).map tickEv)).2
      = 1 := by
  obtain ⟨hstate, hcount⟩ := fingerDown_numlock_zone L cfg s0 t0 h1 h2 h3
  have hA : runTP L cfg (tapStartNumlockState s0 t0) (List.map tickEv ts1) =
      (tapStartNumlockState s0 t0, []) :=
    runTP_ticks_id L cfg _ ts1
      (fun t ht => tick_pre L cfg _ t rfl rfl rfl h3 rfl (hpre t ht))
  have hTi : handleTouchpadEvent L cfg (tapStartNumlockState s0 t0) (tickEv ti) =
      (toggledNumlockState s0 t0, (toggleNumlock (tapStartNumlockState s0 t0)).2) :=
    tick_toggle L cfg _ ti rfl rfl rfl h3 hti
  have hB : runTP L cfg (toggledNumlockState s0 t0) (List.map tickEv ts2) =
      (toggledNumlockState s0 t0, []) :=
    runTP_ticks_id L cfg _ ts2 (fun t _ => tick_post L cfg _ t rfl rfl)
  have hsplit : (ts1 ++ ti :: ts2).map tickEv =
      ts1.map tickEv ++ (tickEv ti :: ts2.map tickEv) := by simp
  rw [hsplit]
  simp only [runTP]
  rw [hstate, runTP_append]
  simp only [hA]
  simp only [runTP]
  simp only [hTi]
  simp only [hB]
  refine ⟨by simp [toggledNumlockState, tapStartNumlockState],
          by simp [toggledNumlockState], ?_⟩
  simp only [countNLPress_append, List.append_nil, List.nil_append]
  rw [hcount, countNLPress_toggleNumlock]

/-- C5 witness: from the startup state positioned at (980, 50) inside
the numlock zone of the concrete layout, a finger-down at time 0, a
tick at 100 ms (below threshold), a tick at 1 s (toggle) and a tick at
2 s: numlock ends up on, the phase is TouchStart, and exactly one
numlock keypress is emitted. -/
theorem numlock_hold_toggles_once_witness :
    (runTP L1004 cfg1 { TouchpadState.default with pos := ⟨980, 50⟩ }
        (fingerEv 1 ⟨0, 0⟩ ::
          (([⟨0, 100000⟩] : List TimeVal) ++ (⟨1, 0⟩ : TimeVal) ::
            ([⟨2, 0⟩] : List TimeVal)).map tickEv)).1.numlock
      = !({ TouchpadState.default with pos := ⟨980, 50⟩ } : TouchpadState).numlock ∧
    (runTP L1004 cfg1 { TouchpadState.default with pos := ⟨980, 50⟩ }
        (fingerEv 1 ⟨0, 0⟩ ::
          (([⟨0, 100000⟩] : List TimeVal) ++ (⟨1, 0⟩ : TimeVal) ::
            ([⟨2, 0⟩] : List TimeVal)).map tickEv)).1.finger_state
      = FingerState.TouchStart ∧
    countNLPress (runTP L1004 cfg1 { TouchpadState.default with pos := ⟨980, 50⟩ }
        (fingerEv 1 ⟨0, 0⟩ ::
          (([⟨0, 100000⟩] : List TimeVal) ++ (⟨1, 0⟩ : TimeVal) ::
            ([⟨2, 0⟩] : List TimeVal)).map tickEv)).2 = 1 :=
  numlock_hold_toggles_once L1004 cfg1 { TouchpadState.default with pos := ⟨980, 50⟩ }
    ⟨0, 0⟩ [⟨0, 100000⟩] ⟨1, 0⟩ [⟨2, 0⟩]
    (by decide) (by decide) (by decide)
    (by intro t ht; simp at ht; rw [ht]; decide) (by decide)

end AsusNumpad
